import Mathlib

/-!
Verification development for the credential-resolution and usage-ledger core
of the `free-api` repository.

The Python source is shallowly embedded as follows:
- Python `Decimal` values (costs) become `Rat`; the source sets a 28-digit
  context, and every cost in scope is an exact small decimal, so arithmetic
  on these values is exact and `Rat` models it faithfully.
- Python dicts that act as records become Lean structures; a dict key that
  the source reads with `.get(k, default)` or guards with `"k" in d` becomes
  an `Option` field.
- the in-memory store `USER_API_KEYS_STORE` (a dict keyed by credential
  strings) becomes an association list with Python-dict update semantics
  (replace the first matching key in place, else append).
- MongoDB becomes a list of documents; `find_one` is the first match in list
  order, and `update_one` with `upsert=True` replaces the first match or
  appends.  A disconnected database (`db is None` in the source) is modelled
  by `Option`.
- in-place mutation of a looked-up record is modelled by explicit state
  passing: the final write-through of the mutated record corresponds to the
  assignments the source performs at the end of each operation.
-/

namespace FreeApi

/-- Per-model usage entry stored under `model_usage` (src/app/api/routes.py,
lines 122-134). -/
structure ModelStats where
  request_count : Nat
  input_tokens : Nat
  output_tokens : Nat
  cost : Rat
deriving DecidableEq, Repr

/-- The `api_key` substructure of a user document (src/app/auth/routes.py,
lines 255-261).  `active` is optional because the source reads it with
`.get("active", True)`. -/
structure ApiKeyInfo where
  key : String
  name : String
  created_at : Nat
  last_used : Option Nat
  active : Option Bool
deriving DecidableEq, Repr

/-- A user document as created by `register_user` (src/app/auth/routes.py,
lines 131-147) and mutated by the other operations.  Fields the source reads
defensively (`.get`, `"k" in d`) are `Option`-typed. -/
structure UserRecord where
  username : String
  email : String
  password_hash : String
  full_name : Option String
  active : Option Bool
  quota_left : Option Int
  request_count : Option Nat
  total_input_tokens : Option Nat
  total_output_tokens : Option Nat
  total_cost : Option Rat
  model_usage : Option (List (String × ModelStats))
  user_id : String
  account_created_at : Option Nat
  last_login : Option Nat
  login_count : Option Nat
  access_token : String
  api_key : Option ApiKeyInfo
deriving DecidableEq, Repr

/-- A price-table entry of `MODEL_COSTS` (src/app/config/settings.py,
lines 31-48). -/
structure CostEntry where
  input_cost_per_token : Rat
  output_cost_per_token : Rat
deriving DecidableEq, Repr

/-- The `MODEL_COSTS` table (src/app/config/settings.py, lines 31-48).
Each rational is the exact value of the Decimal literal in the source. -/
def MODEL_COSTS : List (String × CostEntry) := [
  ("provider-4/gpt-4.1", ⟨mkRat 200 100000000, mkRat 800 100000000⟩),
  ("provider-4/gpt-4.1-mini", ⟨mkRat 40 100000000, mkRat 160 100000000⟩),
  ("provider-4/gpt-4.1-nano", ⟨mkRat 10 100000000, mkRat 40 100000000⟩),
  ("provider-4/gpt-4o", ⟨mkRat 500 100000000, mkRat 1500 100000000⟩),
  ("provider-4/gpt-4o-mini", ⟨mkRat 15 100000000, mkRat 60 100000000⟩),
  ("provider-4/o3-mini", ⟨0, 0⟩),
  ("provider-4/deepseek-r1", ⟨mkRat 800 100000000, mkRat 800 100000000⟩),
  ("provider-4/deepseek-v3", ⟨0, 0⟩),
  ("provider-4/llama-4-scout", ⟨mkRat 11 100000000, mkRat 34 100000000⟩),
  ("provider-4/llama-4-maverick", ⟨mkRat 50 100000000, mkRat 77 100000000⟩),
  ("provider-4/mistral-large-latest", ⟨mkRat 800 100000000, mkRat 2400 100000000⟩),
  ("provider-4/mistral-small", ⟨mkRat 200 100000000, mkRat 600 100000000⟩),
  ("provider-4/gemini-2.5-flash-preview-04-17", ⟨mkRat 15 100000000, mkRat 60 100000000⟩),
  ("provider-4/gemini-2.5-pro-exp-03-25", ⟨mkRat 125 100000000, mkRat 1000 100000000⟩),
  ("gpt-3.5-turbo", ⟨mkRat 5 10000000, mkRat 15 10000000⟩),
  ("default_model_for_costing", ⟨0, 0⟩)]

/-- The names rewritten by `MODEL_NAME_MAPPING` (src/app/config/settings.py,
lines 51-56); each maps to itself with the provider-4 marker prepended. -/
def MODEL_NAME_MAPPING_NAMES : List String :=
  ["gpt-4.1", "gpt-4.1-mini", "gpt-4.1-nano", "gpt-4o", "gpt-4o-mini", "o3-mini",
   "deepseek-r1", "deepseek-v3", "llama-4-scout", "llama-4-maverick",
   "mistral-large-latest", "mistral-small",
   "gemini-2.5-flash-preview-04-17", "gemini-2.5-pro-exp-03-25"]

/-- Name rewriting performed at src/app/api/routes.py, lines 61-66: a name in
the mapping gains the provider marker, any other name passes through. -/
def mapped_model_name (m : String) : String :=
  if MODEL_NAME_MAPPING_NAMES.contains m then "provider-4/" ++ m else m

/-- Lookup in the cost table; models Python `MODEL_COSTS.get(name)`. -/
def lookup_cost (m : String) : Option CostEntry :=
  (MODEL_COSTS.find? (fun kv => kv.1 == m)).map (fun kv => kv.2)

/-- The cost-entry selection at src/app/api/routes.py, line 91: first the
requested name, then the backend name, then the default table entry.  Every
table entry is a non-empty dict in the source, so Python `or` picks the
first lookup that succeeds. -/
def model_costs_for (original mapped : String) : CostEntry :=
  match lookup_cost original with
  | some c => c
  | none =>
    match lookup_cost mapped with
    | some c => c
    | none =>
      match lookup_cost "default_model_for_costing" with
      | some c => c
      | none => ⟨0, 0⟩

/-- Phase one of the per-model upsert (src/app/api/routes.py, lines 122-128):
if the model has no entry yet, append one with all counters at zero. -/
def ensure_model_entry (m : String) (mu : List (String × ModelStats)) :
    List (String × ModelStats) :=
  if (mu.find? (fun kv => kv.1 == m)).isSome then mu else mu ++ [(m, ⟨0, 0, 0, 0⟩)]

/-- Phase two of the per-model upsert (src/app/api/routes.py, lines 130-134):
add this request to the first entry for the model. -/
def add_model_usage (m : String) (i o : Nat) (c : Rat) :
    List (String × ModelStats) → List (String × ModelStats)
  | [] => []
  | kv :: rest =>
    if kv.1 == m then
      (kv.1, ⟨kv.2.request_count + 1, kv.2.input_tokens + i, kv.2.output_tokens + o,
              kv.2.cost + c⟩) :: rest
    else kv :: add_model_usage m i o c rest

/-- The ledger mutation of the non-streaming branch of
`proxy_openai_chat_completions` (src/app/api/routes.py, lines 85-134): cost
computed from the price table, counters incremented, quota decremented and
clamped at zero, per-model entry upserted. -/
def recordUsage (ud : UserRecord) (model_name : String) (input_tokens output_tokens : Nat) :
    UserRecord :=
  let original := model_name
  let mapped := mapped_model_name model_name
  let costs := model_costs_for original mapped
  let input_cost : Rat := (input_tokens : Rat) * costs.input_cost_per_token
  let output_cost : Rat := (output_tokens : Rat) * costs.output_cost_per_token
  let cost_this_req : Rat := input_cost + output_cost
  let mu1 := ensure_model_entry original (ud.model_usage.getD [])
  let mu2 := add_model_usage original input_tokens output_tokens cost_this_req mu1
  { ud with
    request_count := some (ud.request_count.getD 0 + 1)
    total_input_tokens := some (ud.total_input_tokens.getD 0 + input_tokens)
    total_output_tokens := some (ud.total_output_tokens.getD 0 + output_tokens)
    total_cost := some (ud.total_cost.getD 0 + cost_this_req)
    quota_left :=
      match ud.quota_left with
      | some q =>
        let q1 := q - ((input_tokens : Int) + (output_tokens : Int))
        some (if q1 < 0 then 0 else q1)
      | none => none
    model_usage := some mu2 }

/-- Iterated usage recording: one entry per proxied call, each carrying the
requested model name and the token counts reported by the backend. -/
def apply_calls (calls : List (String × Nat × Nat)) (ud : UserRecord) : UserRecord :=
  calls.foldl (fun r c => recordUsage r c.1 c.2.1 c.2.2) ud

/-- Sum of the `cost` field over all `model_usage` entries. -/
def sum_model_costs : List (String × ModelStats) → Rat
  | [] => 0
  | kv :: rest => kv.2.cost + sum_model_costs rest

/-- The fresh user document built by `register_user` (src/app/auth/routes.py,
lines 131-147). -/
def new_user_record (username email password_hash : String) (full_name : Option String)
    (user_id access_token : String) (now : Nat) : UserRecord :=
  { username := username
    email := email
    password_hash := password_hash
    full_name := full_name
    active := some true
    quota_left := some 500000
    request_count := some 0
    total_input_tokens := some 0
    total_output_tokens := some 0
    total_cost := some 0
    model_usage := some []
    user_id := user_id
    account_created_at := some now
    last_login := none
    login_count := none
    access_token := access_token
    api_key := none }

/-- The in-memory store: an association list keyed by credential string,
with Python-dict semantics (ordered, unique keys). -/
abbrev Cache := List (String × UserRecord)

/-- Python dict read `store.get(k)`. -/
def cacheGet (c : Cache) (k : String) : Option UserRecord :=
  (c.find? (fun kv => kv.1 == k)).map (fun kv => kv.2)

/-- Python dict write `store[k] = r`: replace the first entry with this key
in place, else append at the end. -/
def cacheSet : Cache → String → UserRecord → Cache
  | [], k, r => [(k, r)]
  | kv :: rest, k, r => if kv.1 == k then (k, r) :: rest else kv :: cacheSet rest k r

/-- Python `del store[k]`: drop the first entry with this key. -/
def cacheDel : Cache → String → Cache
  | [], _ => []
  | kv :: rest, k => if kv.1 == k then rest else kv :: cacheDel rest k

/-- Whole-system state: the in-memory `USER_API_KEYS_STORE` and the MongoDB
user collection; `db = none` models a database that is not connected, in
which case every store operation in src/app/db/mongodb.py is a no-op that
reports no user. -/
structure SysState where
  USER_API_KEYS_STORE : Cache
  db : Option (List UserRecord)
deriving DecidableEq, Repr

/-- True when the document carries this credential as its api-key string;
this is the match predicate of the `api_key.key` index queries. -/
def api_key_matches (k : String) (d : UserRecord) : Bool :=
  match d.api_key with
  | some a => a.key == k
  | none => false

/-- src/app/db/mongodb.py, lines 225-241. -/
def get_user_by_username (s : SysState) (u : String) : Option UserRecord :=
  s.db.bind (fun docs => docs.find? (fun d => d.username == u))

/-- src/app/db/mongodb.py, lines 243-259. -/
def get_user_by_api_key (s : SysState) (k : String) : Option UserRecord :=
  s.db.bind (fun docs => docs.find? (api_key_matches k))

/-- src/app/db/mongodb.py, lines 261-277. -/
def get_user_by_access_token (s : SysState) (t : String) : Option UserRecord :=
  s.db.bind (fun docs => docs.find? (fun d => d.access_token == t))

/-- MongoDB `update_one(query, set, upsert=True)` with a full document:
replace the first matching document, else append the document. -/
def upsert_doc (p : UserRecord → Bool) (r : UserRecord) :
    List UserRecord → List UserRecord
  | [] => [r]
  | d :: ds => if p d then r :: ds else d :: upsert_doc p r ds

/-- src/app/db/mongodb.py, lines 190-223 (`update_user`): when the write key
is the documents own api-key string, address the document by the api-key
index; otherwise stamp the key into `access_token` and address the document
by the access-token index.  With no database connection nothing happens. -/
def update_user (s : SysState) (user_key : String) (r : UserRecord) : SysState :=
  match s.db with
  | none => s
  | some docs =>
    match r.api_key with
    | some a =>
      if a.key == user_key then
        { s with db := some (upsert_doc (api_key_matches user_key) r docs) }
      else
        let r2 := { r with access_token := user_key }
        { s with db := some (upsert_doc (fun d => d.access_token == user_key) r2 docs) }
    | none =>
      let r2 := { r with access_token := user_key }
      { s with db := some (upsert_doc (fun d => d.access_token == user_key) r2 docs) }

/-- Typed versions of the four failures raised by the bearer authentication
dependency: HTTP 401 invalid key, 403 inactive key, 403 inactive account,
and 429 quota exceeded. -/
inductive AuthErr where
  | authenticationFailure
  | inactiveKey
  | inactiveAccount
  | quotaExceeded
deriving DecidableEq, Repr

/-- The linear fallback scan over the cached records (src/app/auth/routes.py,
lines 58-65): first record whose embedded api-key string equals the
credential, in insertion order. -/
def cache_scan_for_api_key (c : Cache) (k : String) : Option UserRecord :=
  (c.find? (fun kv => api_key_matches k kv.2)).map (fun kv => kv.2)

/-- The credential-lookup chain of `authenticate_user_via_bearer`
(src/app/auth/routes.py, lines 41-65): durable store by api-key index, then
by access-token index (a hit is written into the cache, line 50), then the
cache by direct key, then the linear scan.  Returns the record found, if
any, together with the state after the line-50 cache write. -/
def lookup_user (s : SysState) (user_key : String) : Option UserRecord × SysState :=
  match (get_user_by_api_key s user_key).orElse
      (fun _ => get_user_by_access_token s user_key) with
  | some ud =>
    (some ud, { s with USER_API_KEYS_STORE := cacheSet s.USER_API_KEYS_STORE user_key ud })
  | none =>
    match cacheGet s.USER_API_KEYS_STORE user_key with
    | some ud => (some ud, s)
    | none => (cache_scan_for_api_key s.USER_API_KEYS_STORE user_key, s)

/-- The post-match checks and write-through of `authenticate_user_via_bearer`
(src/app/auth/routes.py, lines 82-100): inactive account gives 403, an
exhausted non-null quota gives 429, otherwise the record is written to the
cache under the credential and to the durable store. -/
def finish_auth (s : SysState) (user_key : String) (ud : UserRecord) :
    Except AuthErr (SysState × UserRecord) :=
  if (ud.active.getD true) = false then .error .inactiveAccount
  else
    match ud.quota_left with
    | some q =>
      if q ≤ 0 then .error .quotaExceeded
      else
        let s2 := { s with USER_API_KEYS_STORE := cacheSet s.USER_API_KEYS_STORE user_key ud }
        .ok (update_user s2 user_key ud, ud)
    | none =>
      let s2 := { s with USER_API_KEYS_STORE := cacheSet s.USER_API_KEYS_STORE user_key ud }
      .ok (update_user s2 user_key ud, ud)

/-- src/app/auth/routes.py, lines 35-100 (`authenticate_user_via_bearer`):
resolve the credential through the lookup chain; no record gives 401; a
record matched through its own api-key string whose key is inactive gives
403, an active key gets its `last_used` stamped; then the account-active
and quota gates run and the record is written through. -/
def authenticate_user_via_bearer (s : SysState) (user_key : String) (now : Nat) :
    Except AuthErr (SysState × UserRecord) :=
  match lookup_user s user_key with
  | (none, _) => .error .authenticationFailure
  | (some ud, s1) =>
    match ud.api_key with
    | some a =>
      if a.key == user_key then
        if (a.active.getD true) = false then .error .inactiveKey
        else finish_auth s1 user_key { ud with api_key := some { a with last_used := some now } }
      else finish_auth s1 user_key ud
    | none => finish_auth s1 user_key ud

/-- The registration failure: HTTP 400, username already registered. -/
inductive RegErr where
  | uniquenessConflict
deriving DecidableEq, Repr

/-- src/app/auth/routes.py, lines 102-154 (`register_user`): reject when the
username exists in the durable store or in any cached record; otherwise
build the fresh document, cache it under the new access token and write it
to the durable store. -/
def register_user (s : SysState) (username email password_hash : String)
    (full_name : Option String) (user_id access_token : String) (now : Nat) :
    Except RegErr (SysState × String) :=
  match get_user_by_username s username with
  | some _ => .error .uniquenessConflict
  | none =>
    if s.USER_API_KEYS_STORE.any (fun kv => kv.2.username == username) then
      .error .uniquenessConflict
    else
      let nu := new_user_record username email password_hash full_name user_id access_token now
      let s1 := { s with USER_API_KEYS_STORE := cacheSet s.USER_API_KEYS_STORE access_token nu }
      .ok (update_user s1 access_token nu, access_token)

/-- src/app/auth/routes.py, lines 239-301 (`create_api_key`): install a fresh
api-key substructure on the authenticated record, write it to the cache
under the authenticating credential; when an old key existed and was a cache
key, copy the record to the new key and delete the old cache entry; then
write the record to the durable store, write the new-key record, and mark
the old-key document inactive if the store still resolves it.  The result is
`none` exactly on the KeyError path of line 282 (an old key existed but was
not a cache key). -/
def create_api_key (s : SysState) (ud : UserRecord) (user_key : String)
    (name : String) (now : Nat) (new_api_key : String) :
    Option (SysState × ApiKeyInfo) :=
  let old_key : Option String := ud.api_key.map (fun a => a.key)
  let newSub : ApiKeyInfo := ⟨new_api_key, name, now, none, some true⟩
  let ud2 := { ud with api_key := some newSub }
  let c1 := cacheSet s.USER_API_KEYS_STORE user_key ud2
  let c2 :=
    match old_key with
    | some ok =>
      match cacheGet c1 ok with
      | some d => cacheDel (cacheSet c1 new_api_key { d with api_key := some newSub }) ok
      | none => c1
    | none => c1
  let s2 := update_user { s with USER_API_KEYS_STORE := c2 } user_key ud2
  match old_key with
  | none => some (s2, newSub)
  | some ok =>
    match cacheGet s2.USER_API_KEYS_STORE new_api_key with
    | none => none
    | some new_user_data =>
      let s3 := update_user s2 new_api_key new_user_data
      let s4 :=
        match get_user_by_api_key s3 ok with
        | some old_user =>
          match old_user.api_key with
          | some oa =>
            update_user s3 ok { old_user with api_key := some { oa with active := some false } }
          | none => s3
        | none => s3
      some (s4, newSub)

/-- The `POST /auth/keys` endpoint as a whole: the bearer dependency resolves
the credential, then `create_api_key` runs on the authenticated record. -/
def rotate_via (s : SysState) (cred : String) (name : String) (now : Nat)
    (new_api_key : String) : Option (SysState × ApiKeyInfo) :=
  match authenticate_user_via_bearer s cred now with
  | .error _ => none
  | .ok (s1, ud) => create_api_key s1 ud cred name now new_api_key

/-- The non-streaming ledger path of `proxy_openai_chat_completions`
(src/app/api/routes.py, lines 69-152) at the level of its effects: the
streaming branch returns before any ledger code runs, so it leaves the
record and both stores untouched; the non-streaming branch applies
`recordUsage` and writes the updated record through cache and store. -/
def proxy_openai_chat_completions (s : SysState) (ud : UserRecord) (user_key : String)
    (model_name : String) (stream : Bool) (input_tokens output_tokens : Nat) :
    SysState × UserRecord :=
  if stream then (s, ud)
  else
    let ud2 := recordUsage ud model_name input_tokens output_tokens
    let s1 := { s with USER_API_KEYS_STORE := cacheSet s.USER_API_KEYS_STORE user_key ud2 }
    (update_user s1 user_key ud2, ud2)

/-- The adoption condition of the startup reconciler (src/main.py, lines
40-48): MongoDB returned a non-empty user set, and the in-memory store is
empty or strictly smaller than that set. -/
def lifespan_startup_adopts (store mongo_users : Cache) : Bool :=
  !mongo_users.isEmpty && (store.isEmpty || decide (store.length < mongo_users.length))

/-- Python `store.update(mongo_users)`. -/
def dict_update (store mongo_users : Cache) : Cache :=
  mongo_users.foldl (fun acc kv => cacheSet acc kv.1 kv.2) store

/-- The startup merge (src/main.py, lines 40-48): adopt the MongoDB set into
the in-memory store only under the adoption condition, else keep the store. -/
def lifespan_startup (store mongo_users : Cache) : Cache :=
  if lifespan_startup_adopts store mongo_users then dict_update store mongo_users else store

/-- The shutdown write-back condition (src/main.py, lines 64-80): the
in-memory store is non-empty and not smaller than the MongoDB user count;
only then is `save_users` called. -/
def lifespan_shutdown_saves (store : Cache) (mongo_user_count : Nat) : Bool :=
  !store.isEmpty && decide (mongo_user_count ≤ store.length)

/-- Modelled from the spec wording of the resolver contract: the credential
is present as some account access token, or as an api-key string whose
`active` flag reads true, across durable store and cache.  This is the
spec-side predicate the resolver outcome is compared against. -/
def spec_credential_present (s : SysState) (cred : String) : Bool :=
  (s.db.getD []).any (fun d => d.access_token == cred ||
    (match d.api_key with
     | some a => a.key == cred && a.active.getD true
     | none => false))
  || s.USER_API_KEYS_STORE.any (fun kv => kv.2.access_token == cred ||
    (match kv.2.api_key with
     | some a => a.key == cred && a.active.getD true
     | none => false))

/-- True when the credential matches anything the lookup chain of
`authenticate_user_via_bearer` can see: a durable-store access token or
api-key string (active or not), a cache key, or a cached embedded api-key
string. -/
def code_credential_present (s : SysState) (cred : String) : Bool :=
  (s.db.getD []).any (fun d => d.access_token == cred || api_key_matches cred d)
  || s.USER_API_KEYS_STORE.any (fun kv => kv.1 == cred || api_key_matches cred kv.2)

/-- Projection of a successful authentication onto the returned record. -/
def auth_result_record (s : SysState) (cred : String) (now : Nat) : Option UserRecord :=
  match authenticate_user_via_bearer s cred now with
  | .ok (_, ud) => some ud
  | .error _ => none

/-- Sample freshly registered account used by the concrete scenarios. -/
def alice_demo : UserRecord :=
  new_user_record "alice" "alice@example.com" "hash1" none "uid1" "tok" 0

/-- The alice account holding an active api key `k1`, as it stands before a
key rotation. -/
def alice_keyed : UserRecord :=
  { alice_demo with api_key := some ⟨"k1", "first", 0, none, some true⟩, quota_left := some 100 }

/-- System state before rotation: the startup loader indexes the account
under both of its aliases, and the store holds its single document. -/
def rotation_start_state : SysState :=
  { USER_API_KEYS_STORE := [("k1", alice_keyed), ("tok", alice_keyed)], db := some [alice_keyed] }

/-- First rotation, authenticated with the access token: the `POST
/auth/keys` endpoint issuing key `k2` named `nm` at time 1. -/
def rotation_once : Option (SysState × ApiKeyInfo) :=
  rotate_via rotation_start_state "tok" "nm" 1 "k2"

/-- State after the first rotation. -/
def rotation_once_state : SysState :=
  (rotation_once.map (fun p => p.1)).getD { USER_API_KEYS_STORE := [], db := none }

/-- Second rotation in sequence, issuing key `k3` named `nm2` at time 2. -/
def rotation_twice : Option (SysState × ApiKeyInfo) :=
  rotate_via rotation_once_state "tok" "nm2" 2 "k3"

/-- State after the second rotation. -/
def rotation_twice_state : SysState :=
  (rotation_twice.map (fun p => p.1)).getD { USER_API_KEYS_STORE := [], db := none }

/-- An account whose api key `k1` has been deactivated while the account
itself stays active. -/
def inactive_key_rec : UserRecord :=
  { alice_demo with api_key := some ⟨"k1", "first", 0, none, some false⟩ }

/-- State holding only the deactivated-key account. -/
def inactive_key_state : SysState :=
  { USER_API_KEYS_STORE := [("tok", inactive_key_rec)], db := some [inactive_key_rec] }

/-- A legacy record in which both optional `active` flags and the quota are
absent, reachable only through the in-memory store (database down). -/
def defaults_rec : UserRecord :=
  { username := "bob"
    email := ""
    password_hash := ""
    full_name := none
    active := none
    quota_left := none
    request_count := none
    total_input_tokens := none
    total_output_tokens := none
    total_cost := none
    model_usage := none
    user_id := "uid-bob"
    account_created_at := none
    last_login := none
    login_count := none
    access_token := "t10"
    api_key := none }

/-- Cache-only state for the legacy record. -/
def defaults_state : SysState :=
  { USER_API_KEYS_STORE := [("t10", defaults_rec)], db := none }

/-- Empty system with no database connection. -/
def empty_disconnected_state : SysState :=
  { USER_API_KEYS_STORE := [], db := none }

/-- State after a first successful registration of alice against the
disconnected system: her record lives only in the in-memory store. -/
def registered_once_state : SysState :=
  match register_user empty_disconnected_state "alice" "e1" "p1" none "u1" "tokA" 0 with
  | .ok p => p.1
  | .error _ => empty_disconnected_state

/-- The ledger scenario record: alice after one `gpt-4o-mini` call with 100
input and 50 output tokens. -/
def c6_result : UserRecord := recordUsage alice_demo "gpt-4o-mini" 100 50

end FreeApi

deriving instance DecidableEq for Except

namespace FreeApi

theorem sum_model_costs_append_zero (mu : List (String × ModelStats)) (m : String) :
    sum_model_costs (mu ++ [(m, ⟨0, 0, 0, 0⟩)]) = sum_model_costs mu := by
  induction mu with
  | nil => simp [sum_model_costs]
  | cons kv rest ih => simp [sum_model_costs, ih]

theorem sum_model_costs_ensure (m : String) (mu : List (String × ModelStats)) :
    sum_model_costs (ensure_model_entry m mu) = sum_model_costs mu := by
  unfold ensure_model_entry
  split
  · rfl
  · exact sum_model_costs_append_zero mu m

theorem ensure_model_entry_present (m : String) (mu : List (String × ModelStats)) :
    ((ensure_model_entry m mu).find? (fun kv => kv.1 == m)).isSome := by
  unfold ensure_model_entry
  split
  next h => exact h
  next h =>
    rw [List.find?_append]
    rw [Option.not_isSome_iff_eq_none] at h
    simp [h, List.find?]

theorem sum_model_costs_add (m : String) (i o : Nat) (c : Rat)
    (mu : List (String × ModelStats))
    (h : (mu.find? (fun kv => kv.1 == m)).isSome) :
    sum_model_costs (add_model_usage m i o c mu) = sum_model_costs mu + c := by
  induction mu with
  | nil => simp [List.find?] at h
  | cons kv rest ih =>
    by_cases hk : kv.1 == m
    · simp [add_model_usage, hk, sum_model_costs]
      ring
    · rw [List.find?_cons_of_neg _ (by simp_all)] at h
      simp only [add_model_usage, hk, if_neg, Bool.false_eq_true, ite_false]
      simp [sum_model_costs, ih h]
      ring

theorem recordUsage_cost_invariant (ud : UserRecord) (m : String) (i o : Nat)
    (h : ud.total_cost = some (sum_model_costs (ud.model_usage.getD []))) :
    (recordUsage ud m i o).total_cost =
      some (sum_model_costs ((recordUsage ud m i o).model_usage.getD [])) := by
  simp only [recordUsage, Option.getD_some]
  rw [sum_model_costs_add _ _ _ _ _ (ensure_model_entry_present m _),
      sum_model_costs_ensure, h]
  simp

theorem apply_calls_cost_invariant (calls : List (String × Nat × Nat)) :
    ∀ ud : UserRecord,
      ud.total_cost = some (sum_model_costs (ud.model_usage.getD [])) →
      (apply_calls calls ud).total_cost =
        some (sum_model_costs ((apply_calls calls ud).model_usage.getD [])) := by
  induction calls with
  | nil => intro ud h; simpa [apply_calls] using h
  | cons c cs ih =>
    intro ud h
    have step := recordUsage_cost_invariant ud c.1 c.2.1 c.2.2 h
    simpa [apply_calls] using ih (recordUsage ud c.1 c.2.1 c.2.2) step

/-- C1: starting from a freshly registered account, after any sequence of
usage-recording calls the accumulated `total_cost` equals the exact sum of
the `cost` fields over all `model_usage` entries: registration initialises
`total_cost` to zero with an empty `model_usage` map, and each recorded call
adds the same exact cost to `total_cost` and to the per-model entry. -/
theorem C1_total_cost_eq_model_usage_sum (username email password_hash : String)
    (full_name : Option String) (user_id access_token : String) (now : Nat)
    (calls : List (String × Nat × Nat)) :
    (apply_calls calls
        (new_user_record username email password_hash full_name user_id access_token now)).total_cost
      = some (sum_model_costs
          ((apply_calls calls
              (new_user_record username email password_hash full_name user_id access_token now)).model_usage.getD [])) :=
  apply_calls_cost_invariant calls _ (by simp [new_user_record, sum_model_costs])

theorem recordUsage_quota_step (ud : UserRecord) (q : Int) (m : String) (i o : Nat)
    (h : ud.quota_left = some q) (hq : 0 ≤ q) :
    ∃ q2, (recordUsage ud m i o).quota_left = some q2 ∧ 0 ≤ q2 ∧ q2 ≤ q := by
  simp only [recordUsage, h]
  refine ⟨_, rfl, ?_, ?_⟩ <;> dsimp only <;> split <;> omega

theorem apply_calls_quota (calls : List (String × Nat × Nat)) :
    ∀ (ud : UserRecord) (q : Int), ud.quota_left = some q → 0 ≤ q →
      ∃ q2, (apply_calls calls ud).quota_left = some q2 ∧ 0 ≤ q2 ∧ q2 ≤ q := by
  induction calls with
  | nil => intro ud q h hq; exact ⟨q, by simpa [apply_calls] using h, hq, le_refl q⟩
  | cons c cs ih =>
    intro ud q h hq
    obtain ⟨q1, h1, hq1, hle1⟩ := recordUsage_quota_step ud q c.1 c.2.1 c.2.2 h hq
    obtain ⟨q2, h2, hq2, hle2⟩ := ih (recordUsage ud c.1 c.2.1 c.2.2) q1 h1 hq1
    exact ⟨q2, by simpa [apply_calls] using h2, hq2, le_trans hle2 hle1⟩

/-- C2: starting from a freshly registered account (whose quota is the
non-null 500000), along every sequence of usage-recording calls the quota
stays defined, never becomes negative, and is monotonically non-increasing:
extending the call sequence can only lower it, and it never drops below
zero because each call decrements by the token total and clamps at zero. -/
theorem C2_quota_never_negative (username email password_hash : String)
    (full_name : Option String) (user_id access_token : String) (now : Nat)
    (calls more : List (String × Nat × Nat)) :
    ∃ q1 q2 : Int,
      (apply_calls calls
          (new_user_record username email password_hash full_name user_id access_token now)).quota_left
        = some q1 ∧
      (apply_calls (calls ++ more)
          (new_user_record username email password_hash full_name user_id access_token now)).quota_left
        = some q2 ∧
      0 ≤ q1 ∧ 0 ≤ q2 ∧ q2 ≤ q1 ∧ q1 ≤ 500000 := by
  obtain ⟨q1, h1, hq1, hle1⟩ :=
    apply_calls_quota calls
      (new_user_record username email password_hash full_name user_id access_token now)
      500000 rfl (by omega)
  obtain ⟨q2, h2, hq2, hle2⟩ :=
    apply_calls_quota more _ q1 h1 hq1
  refine ⟨q1, q2, h1, ?_, hq1, hq2, hle2, hle1⟩
  simpa [apply_calls, List.foldl_append] using h2

/-- C9: a streaming chat-completion request that passed authentication
performs no ledger update at all: the returned pair is literally the
untouched system state and the untouched account record, so
`request_count`, token totals, `total_cost`, `model_usage` and `quota_left`
are unchanged and neither the cache nor the durable store is written. -/
theorem C9_streaming_no_ledger_update (s : SysState) (ud : UserRecord)
    (user_key model_name : String) (input_tokens output_tokens : Nat) :
    proxy_openai_chat_completions s ud user_key model_name true input_tokens output_tokens
      = (s, ud) := rfl

/-- C7: the startup reconciler adopts the durable user set only when that
set is at least as large as the in-memory store (and keeps the store
whenever the durable set is smaller), and the shutdown path writes the
in-memory set back only when its count is not smaller than the durable
count (and skips the write whenever it is smaller). -/
theorem C7_reconciler_never_shrink :
    (∀ store mongo_users : Cache,
        lifespan_startup_adopts store mongo_users = true →
          store.length ≤ mongo_users.length)
    ∧ (∀ store mongo_users : Cache,
        mongo_users.length < store.length → lifespan_startup store mongo_users = store)
    ∧ (∀ (store : Cache) (mongo_user_count : Nat),
        lifespan_shutdown_saves store mongo_user_count = true →
          mongo_user_count ≤ store.length)
    ∧ (∀ (store : Cache) (mongo_user_count : Nat),
        store.length < mongo_user_count →
          lifespan_shutdown_saves store mongo_user_count = false) := by
  refine ⟨?_, ?_, ?_, ?_⟩
  · intro store mongo_users h
    simp only [lifespan_startup_adopts, Bool.and_eq_true, Bool.or_eq_true,
      List.isEmpty_iff, decide_eq_true_eq] at h
    rcases h.2 with he | hlt
    · simp [he]
    · omega
  · intro store mongo_users h
    have hne : store.isEmpty = false := by
      cases store with
      | nil => simp at h
      | cons a l => rfl
    have hlt : decide (store.length < mongo_users.length) = false := by
      simp only [decide_eq_false_iff_not, not_lt]
      omega
    have : lifespan_startup_adopts store mongo_users = false := by
      simp [lifespan_startup_adopts, hne, hlt]
    simp [lifespan_startup, this]
  · intro store n h
    simp only [lifespan_shutdown_saves, Bool.and_eq_true, decide_eq_true_eq] at h
    exact h.2
  · intro store n h
    simp only [lifespan_shutdown_saves, Bool.and_eq_false_iff, decide_eq_false_iff_not, not_le]
    right
    omega

/-- Witness for C7: a one-user durable set is adopted into an empty store,
and a one-user store does not overwrite a three-user durable set. -/
theorem C7_witness :
    ([] : Cache).length ≤ ([("tok", alice_demo)] : Cache).length
    ∧ lifespan_shutdown_saves [("tok", alice_demo)] 3 = false :=
  ⟨C7_reconciler_never_shrink.1 [] [("tok", alice_demo)] (by decide),
   C7_reconciler_never_shrink.2.2.2 [("tok", alice_demo)] 3 (by decide)⟩

theorem lookup_user_none_of_unmatched (s : SysState) (cred : String)
    (h : code_credential_present s cred = false) :
    lookup_user s cred = (none, s) := by
  simp only [code_credential_present, Bool.or_eq_false_iff, List.any_eq_false,
    Bool.not_eq_true] at h
  obtain ⟨hdb, hcache⟩ := h
  have hapi : get_user_by_api_key s cred = none := by
    unfold get_user_by_api_key
    cases hd : s.db with
    | none => rfl
    | some docs =>
      show docs.find? (api_key_matches cred) = none
      rw [List.find?_eq_none]
      intro d hdm
      have := hdb d (by simp [hd, hdm])
      simp only [Bool.or_eq_false_iff] at this
      simp [this.2]
  have htok : get_user_by_access_token s cred = none := by
    unfold get_user_by_access_token
    cases hd : s.db with
    | none => rfl
    | some docs =>
      show docs.find? (fun d => d.access_token == cred) = none
      rw [List.find?_eq_none]
      intro d hdm
      have := hdb d (by simp [hd, hdm])
      simp only [Bool.or_eq_false_iff] at this
      simp [this.1]
  have hget : cacheGet s.USER_API_KEYS_STORE cred = none := by
    unfold cacheGet
    rw [Option.map_eq_none', List.find?_eq_none]
    intro kv hkv
    have := hcache kv hkv
    simp only [Bool.or_eq_false_iff] at this
    simp [this.1]
  have hscan : cache_scan_for_api_key s.USER_API_KEYS_STORE cred = none := by
    unfold cache_scan_for_api_key
    rw [Option.map_eq_none', List.find?_eq_none]
    intro kv hkv
    have := hcache kv hkv
    simp only [Bool.or_eq_false_iff] at this
    simp [this.2]
  simp [lookup_user, hapi, htok, Option.orElse, hget, hscan]

/-- C4 counterexample: in `inactive_key_state` the credential `k1` is not
present as any account access token nor as any active api-key string, yet
resolution returns the 403 inactive-key failure rather than the 401
authentication failure the claim requires, because the durable api-key
index also matches deactivated keys. -/
theorem C4_counterexample :
    spec_credential_present inactive_key_state "k1" = false
    ∧ authenticate_user_via_bearer inactive_key_state "k1" 5 = .error .inactiveKey
    ∧ authenticate_user_via_bearer inactive_key_state "k1" 5
        ≠ .error .authenticationFailure := by
  refine ⟨by decide, by decide, ?_⟩
  intro h
  have h2 : authenticate_user_via_bearer inactive_key_state "k1" 5
      = .error .inactiveKey := by decide
  rw [h2] at h
  exact absurd (by injection h) (by decide)

/-- C4 (amended): for every credential that matches nothing the lookup
chain can see, neither a durable-store api-key string (active or not), nor
a durable-store access token, nor an in-memory cache key, nor a cached
embedded api-key string, resolution returns the 401 authentication failure;
the chain tries the four lookups in that order and the first match wins. -/
theorem C4_amended_unknown_credential_401 (s : SysState) (cred : String) (now : Nat)
    (h : code_credential_present s cred = false) :
    authenticate_user_via_bearer s cred now = .error .authenticationFailure := by
  unfold authenticate_user_via_bearer
  rw [lookup_user_none_of_unmatched s cred h]

/-- Witness for C4: the unknown credential `zzz` is rejected with the 401
failure. -/
theorem C4_witness :
    code_credential_present inactive_key_state "zzz" = false
    ∧ authenticate_user_via_bearer inactive_key_state "zzz" 7
        = .error .authenticationFailure :=
  ⟨by decide, C4_amended_unknown_credential_401 inactive_key_state "zzz" 7 (by decide)⟩

/-- C5: whenever the lookup chain resolves the credential to a record whose
embedded api key carries exactly this credential with `active = false`, the
resolver answers the 403 authorization failure, regardless of the
account-level `active` flag and of the quota: the inactive-key check runs
before the account-active and quota gates and short-circuits them. -/
theorem C5_inactive_key_forbidden (s : SysState) (cred : String) (now : Nat)
    (ud : UserRecord) (a : ApiKeyInfo)
    (h1 : (lookup_user s cred).1 = some ud)
    (h2 : ud.api_key = some a) (h3 : a.key = cred) (h4 : a.active = some false) :
    authenticate_user_via_bearer s cred now = .error .inactiveKey := by
  unfold authenticate_user_via_bearer
  rcases hl : lookup_user s cred with ⟨f, s1⟩
  rw [hl] at h1
  simp only at h1
  subst h1
  simp [h2, h3, h4]

/-- Witness for C5: the deactivated key `k1` of an account whose own
`active` flag is true is rejected with the 403 inactive-key failure. -/
theorem C5_witness :
    inactive_key_rec.active = some true
    ∧ authenticate_user_via_bearer inactive_key_state "k1" 5 = .error .inactiveKey :=
  ⟨rfl,
   C5_inactive_key_forbidden inactive_key_state "k1" 5 inactive_key_rec
     ⟨"k1", "first", 0, none, some false⟩ (by decide) rfl rfl rfl⟩

theorem finish_auth_ok (s : SysState) (user_key : String) (ud : UserRecord)
    (h2 : ud.active = none)
    (h4 : ∀ q, ud.quota_left = some q → 0 < q) :
    ∃ p, finish_auth s user_key ud = .ok p := by
  cases hq : ud.quota_left with
  | none =>
    refine ⟨(update_user
      { s with USER_API_KEYS_STORE := cacheSet s.USER_API_KEYS_STORE user_key ud }
      user_key ud, ud), ?_⟩
    simp [finish_auth, h2, hq]
  | some q =>
    have hpos := h4 q hq
    refine ⟨(update_user
      { s with USER_API_KEYS_STORE := cacheSet s.USER_API_KEYS_STORE user_key ud }
      user_key ud, ud), ?_⟩
    simp [finish_auth, h2, hq, show ¬q ≤ 0 from by omega]

/-- C10: when the lookup chain resolves the credential to a record whose
account-level `active` field is absent, whose matched api key (if the match
was through the api key) also lacks its `active` field, and whose quota
gate passes (absent quota or positive remainder), the missing flags are
read as true and authentication succeeds. -/
theorem C10_missing_active_defaults_to_true (s : SysState) (cred : String) (now : Nat)
    (ud : UserRecord)
    (h1 : (lookup_user s cred).1 = some ud)
    (h2 : ud.active = none)
    (h3 : ∀ a, ud.api_key = some a → a.key = cred → a.active = none)
    (h4 : ∀ q, ud.quota_left = some q → 0 < q) :
    ∃ p, authenticate_user_via_bearer s cred now = .ok p := by
  unfold authenticate_user_via_bearer
  rcases hl : lookup_user s cred with ⟨f, s1⟩
  rw [hl] at h1
  simp only at h1
  subst h1
  cases hk : ud.api_key with
  | none =>
    simp only [hk]
    exact finish_auth_ok s1 cred ud h2 h4
  | some a =>
    simp only [hk]
    by_cases hkey : a.key == cred
    · have hact := h3 a hk (by simpa using hkey)
      rw [if_pos hkey]
      rw [if_neg (by simp [hact] : ¬(a.active.getD true = false))]
      exact finish_auth_ok s1 cred _ h2 h4
    · rw [if_neg hkey]
      exact finish_auth_ok s1 cred ud h2 h4

/-- Witness for C10: the legacy record with both flags and the quota absent
authenticates successfully through the cache-only path. -/
theorem C10_witness :
    ∃ p, authenticate_user_via_bearer defaults_state "t10" 9 = .ok p :=
  C10_missing_active_defaults_to_true defaults_state "t10" 9 defaults_rec
    (by decide) rfl (fun a h => nomatch h) (fun q h => nomatch h)

/-- C8: a registration attempt whose username is already taken, whether the
earlier account is visible in the durable store or only in the in-memory
store, is rejected with the uniqueness conflict (HTTP 400) and creates
nothing: the failing branch returns before any cache or store write. -/
theorem C8_duplicate_username_conflict (s : SysState)
    (username email password_hash : String) (full_name : Option String)
    (user_id access_token : String) (now : Nat)
    (h : (∃ d ∈ s.db.getD [], d.username = username) ∨
         (∃ kv ∈ s.USER_API_KEYS_STORE, kv.2.username = username)) :
    register_user s username email password_hash full_name user_id access_token now
      = .error .uniquenessConflict := by
  unfold register_user
  cases hu : get_user_by_username s username with
  | some d => rfl
  | none =>
    have hc : s.USER_API_KEYS_STORE.any (fun kv => kv.2.username == username) = true := by
      rcases h with ⟨d, hd, hdu⟩ | ⟨kv, hkv, hku⟩
      · exfalso
        cases hdb : s.db with
        | none => rw [hdb] at hd; simp at hd
        | some docs =>
          rw [hdb] at hd
          simp only [Option.getD_some] at hd
          unfold get_user_by_username at hu
          rw [hdb] at hu
          have hu2 : docs.find? (fun d => d.username == username) = none := hu
          rw [List.find?_eq_none] at hu2
          exact hu2 d hd (by simp [hdu])
      · exact List.any_eq_true.mpr ⟨kv, hkv, by simp [hku]⟩
    simp [hc]

/-- Witness for C8: alice registered once against a disconnected database
(her record lives only in the in-memory store); the second registration of
the same username is rejected. -/
theorem C8_witness :
    register_user registered_once_state "alice" "e2" "p2" none "u2" "tokB" 1
      = .error .uniquenessConflict :=
  C8_duplicate_username_conflict registered_once_state "alice" "e2" "p2" none "u2" "tokB" 1
    (Or.inr (by decide))

/-- C3 counterexample: rotating the key of `alice_keyed` (old key `k1`,
authenticated by access token) completes, yet afterwards the old key
resolves to nothing: the cache entry under `k1` was deleted (line 274 of
src/app/auth/routes.py) and the durable store holds no document whose
api-key string is `k1` — so the record previously addressable by the old
key does NOT remain in the cache and store with `active = false`, contrary
to the claim. -/
theorem C3_counterexample :
    rotation_once.map (fun p =>
        (cacheGet p.1.USER_API_KEYS_STORE "k1", get_user_by_api_key p.1 "k1"))
      = some (none, none) := by decide

/-- C3 (amended): after `create_api_key`, authenticated via the access
token, on an account that already held an api key, the old key is erased
rather than preserved: its cache entry is deleted and the store keeps no
document under it, so authenticating with the old key fails with the 401
authentication failure (not a disabled-key 403); authenticating with the
access token still succeeds and reflects the new key name and creation
time; after two rotations in sequence the account holds exactly the newest
key (active) and both previously issued keys resolve to nothing. -/
theorem C3_amended_rotation_deletes_old_key :
    rotation_once.isSome = true
    ∧ cacheGet rotation_once_state.USER_API_KEYS_STORE "k1" = none
    ∧ get_user_by_api_key rotation_once_state "k1" = none
    ∧ authenticate_user_via_bearer rotation_once_state "k1" 3
        = .error .authenticationFailure
    ∧ (auth_result_record rotation_once_state "tok" 3).map (fun ud => ud.api_key)
        = some (some ⟨"k2", "nm", 1, none, some true⟩)
    ∧ rotation_twice.isSome = true
    ∧ (auth_result_record rotation_twice_state "tok" 4).map (fun ud => ud.api_key)
        = some (some ⟨"k3", "nm2", 2, none, some true⟩)
    ∧ authenticate_user_via_bearer rotation_twice_state "k1" 4
        = .error .authenticationFailure
    ∧ authenticate_user_via_bearer rotation_twice_state "k2" 4
        = .error .authenticationFailure := by
  decide

/-- C6: the recorded cost is always
`inputTokens * price.input + outputTokens * price.output` in exact rational
arithmetic, with the price found through the table (falling back to the
zero-cost default entry for unknown models); concretely, a fresh account
recording a `gpt-4o-mini` call with 100 input and 50 output tokens at the
table prices 0.00000015 and 0.00000060 per token ends with `total_cost`
exactly 0.000045, quota reduced from 500000 to 499850, and a `gpt-4o-mini`
entry whose `request_count` is 1. -/
theorem C6_cost_formula_and_scenario :
    (∀ (ud : UserRecord) (m : String) (i o : Nat),
        (recordUsage ud m i o).total_cost =
          some (ud.total_cost.getD 0 +
            ((i : Rat) * (model_costs_for m (mapped_model_name m)).input_cost_per_token +
             (o : Rat) * (model_costs_for m (mapped_model_name m)).output_cost_per_token)))
    ∧ alice_demo.quota_left = some 500000
    ∧ c6_result.total_cost = some ((45 : Rat) / 1000000)
    ∧ c6_result.quota_left = some 499850
    ∧ ((c6_result.model_usage.getD []).find? (fun kv => kv.1 == "gpt-4o-mini")).map
        (fun kv => kv.2.request_count) = some 1
    ∧ model_costs_for "gpt-4o-mini" (mapped_model_name "gpt-4o-mini")
        = ⟨mkRat 15 100000000, mkRat 60 100000000⟩
    ∧ model_costs_for "unknown-model" (mapped_model_name "unknown-model") = ⟨0, 0⟩ := by
  refine ⟨fun ud m i o => rfl, rfl, ?_, by decide, by decide, rfl, rfl⟩
  simp [c6_result, recordUsage, model_costs_for, mapped_model_name,
    MODEL_NAME_MAPPING_NAMES, lookup_cost, MODEL_COSTS, List.find?,
    ensure_model_entry, add_model_usage, alice_demo, new_user_record]
  norm_num

end FreeApi
